import Mathlib

/-!
Shallow embedding of the dispatch layer of the dr.-arogya-ai-symptom
repository.

Source files embedded:
- `src/doctor-app/mcp_server/doctor_tool.py` (namespace `DoctorTool`):
  static fallback responses, the sequential model loop of
  `analyze_symptoms`, and the "promote successful model" registry swap.
- `src/doctor-app/advanced_mcp_server.py` (namespace `AdvServer`):
  performance tracker, model selector, response cache, parallel race,
  and the `doctor_tool_impl` dispatcher facade.

Machine reals (Python floats) are embedded as `ℚ`; Python's built-in
`hash` is an opaque parameter `h : String → ℤ` (its value is
interpreter-dependent); remote API calls are an oracle
`String → Option String` (`some text` = HTTP success with body `text`,
`none` = timeout / transport error / non-2xx, all of which the source
handles through one `except` branch).
-/

namespace DrArogya

/-- ASCII lowering, the embedding of Python's `str.lower()` on the
ASCII inputs used by the keyword matcher (`Char.toLower` lowers exactly
the ASCII uppercase range). -/
def strLower (s : String) : String :=
  String.mk (s.data.map Char.toLower)

/-- `charListPrefixOf pat l` : `pat` is a prefix of `l` (character lists). -/
def charListPrefixOf : List Char → List Char → Bool
  | [], _ => true
  | _ :: _, [] => false
  | c :: cs, d :: ds => c == d && charListPrefixOf cs ds

/-- `charListHasSub l pat` : `pat` occurs as a contiguous substring of `l`.
Embeds Python's `pat in l` on strings (the empty pattern matches). -/
def charListHasSub : List Char → List Char → Bool
  | [], pat => pat.isEmpty
  | c :: t, pat => charListPrefixOf pat (c :: t) || charListHasSub t pat

/-- `strContainsSub s pat` : Python's `pat in s` for strings. -/
def strContainsSub (s pat : String) : Bool :=
  charListHasSub s.data pat.data

/-- Embeds `any(term in symptoms_lower for term in terms)` from
`get_fallback_response`. -/
def containsAnyTerm (symptomsLower : String) (terms : List String) : Bool :=
  terms.any (fun t => strContainsSub symptomsLower t)

namespace DoctorTool

/-- `MODELS_TO_TRY` from `src/doctor-app/mcp_server/doctor_tool.py`
(lines 35-44), the registry order used by `analyze_symptoms`. -/
def MODELS_TO_TRY : List String :=
  [ "qwen/qwen2.5-vl-32b-instruct:free",
    "mistralai/mistral-small-3.1-24b-instruct:free",
    "deepseek/deepseek-chat-v3-0324:free",
    "deepseek/deepseek-r1-distill-qwen-32b:free",
    "cognitivecomputations/dolphin3.0-r1-mistral-24b:free",
    "qwen/qwq-32b-preview:free",
    "qwen/qwen2.5-vl-72b-instruct:free" ]

/-- Headache keyword list from `get_fallback_response` (line 89). -/
def headacheTerms : List String := ["headache", "migraine", "head pain", "head ache"]

/-- Fever keyword list from `get_fallback_response` (line 150). -/
def feverTerms : List String := ["fever", "temperature", "hot", "chills", "sweating"]

/-- Cough keyword list from `get_fallback_response` (line 214). -/
def coughTerms : List String := ["cough", "coughing", "throat", "phlegm", "mucus"]

/-- Digestive keyword list from `get_fallback_response` (line 278). -/
def stomachTerms : List String :=
  ["stomach", "nausea", "vomit", "diarrhea", "constipation", "abdominal", "digestive", "gut"]

/-- The headache-category canned response (source lines 91-147). -/
def headacheResponseText : String := "## Potential Diagnosis
- **Tension headache** (High likelihood): The most common type of headache, characterized by mild to moderate pain that feels like a band around the head.
- **Migraine** (Moderate likelihood): Characterized by throbbing pain, often on one side of the head, sometimes accompanied by nausea, vomiting, or sensitivity to light and sound.
- **Dehydration headache** (Moderate likelihood): Caused by insufficient fluid intake.
- **Sinus headache** (Low likelihood): Pain concentrated in the sinus areas, often with nasal congestion.
- **Cluster headache** (Low likelihood): Severe pain around one eye or one side of the head.

## Recommendations
- **Over-the-counter medications**:
  - Acetaminophen (Tylenol) for pain relief
  - Ibuprofen (Advil, Motrin) or Aspirin for pain and inflammation
  - Combination medications specifically for headaches (like Excedrin)

- **Home remedies**:
  - Apply a cold or warm compress to your head or neck
  - Rest in a quiet, dark room
  - Stay hydrated by drinking plenty of water
  - Practice relaxation techniques such as deep breathing or meditation
  - Gentle massage of the temples or neck

- **Lifestyle changes**:
  - Maintain regular sleep patterns
  - Stay hydrated throughout the day
  - Manage stress through regular exercise and relaxation techniques
  - Limit screen time and take regular breaks
  - Maintain good posture to reduce neck and shoulder tension

## Severity Assessment
**LOW to MEDIUM severity condition**

Most headaches are not dangerous and can be managed with self-care. However, the severity depends on:
- Frequency and duration of headaches
- Impact on daily activities
- Associated symptoms

The assessment is LOW if this is an occasional headache with typical symptoms, and MEDIUM if headaches are frequent or interfere with daily activities.

## Follow-up Recommendations
- **See a doctor if**:
  - Headache is sudden and severe (\"worst headache of your life\")
  - Headache is accompanied by fever, stiff neck, confusion, seizures, double vision, weakness, numbness, or difficulty speaking
  - Headache worsens despite over-the-counter pain medication
  - Headaches wake you from sleep
  - You have a history of headaches but the pattern has changed
  - Headaches started after a head injury

- **Tests that might be needed**:
  - Physical examination
  - Neurological examination
  - In persistent cases: CT scan or MRI (rarely needed for typical headaches)

- **Timeframes**:
  - For typical headaches: Self-care for 1-2 days
  - If no improvement after 3 days of self-treatment: Consult a healthcare provider
  - For severe or unusual symptoms as described above: Seek immediate medical attention

*Disclaimer: This information is not a substitute for professional medical advice, diagnosis, or treatment. Always seek the advice of your physician or other qualified health provider with any questions you may have regarding a medical condition.*"

/-- The fever-category canned response (source lines 152-211). -/
def feverResponseText : String := "## Potential Diagnosis
- **Viral infection** (High likelihood): Common cold, flu, or other viral illnesses often cause fever.
- **Bacterial infection** (Moderate likelihood): Such as strep throat, urinary tract infection, or bacterial pneumonia.
- **COVID-19** (Moderate likelihood): Fever is a common symptom of COVID-19 infection.
- **Inflammatory conditions** (Low likelihood): Various inflammatory conditions can cause fever.
- **Medication reaction** (Low likelihood): Some medications can cause fever as a side effect.

## Recommendations
- **Over-the-counter medications**:
  - Acetaminophen (Tylenol) to reduce fever
  - Ibuprofen (Advil, Motrin) or Aspirin for fever and inflammation
  - Note: Follow dosage instructions carefully and consult a pharmacist if unsure

- **Home remedies**:
  - Stay hydrated by drinking plenty of fluids
  - Rest and get adequate sleep
  - Use a light blanket if you have chills
  - Take a lukewarm bath or apply cool compresses if the fever is high
  - Wear lightweight clothing and keep room temperature comfortable

- **Lifestyle changes**:
  - Temporarily reduce physical activity while recovering
  - Eat light, easily digestible foods
  - Avoid alcohol and caffeine
  - Practice good hand hygiene to prevent spreading infection

## Severity Assessment
**LOW to MEDIUM severity condition**

The severity of fever depends on:
- Temperature level (low-grade: 99-100.9°F/37.2-38.3°C, moderate: 101-103°F/38.4-39.4°C, high: >103°F/39.5°C)
- Duration of fever
- Associated symptoms
- Age and overall health

A typical fever in an otherwise healthy adult is usually LOW severity if below 102°F (38.9°C) and MEDIUM if higher or persistent.

## Follow-up Recommendations
- **See a doctor if**:
  - Fever is above 103°F (39.4°C)
  - Fever persists for more than 3 days
  - Fever is accompanied by severe headache, stiff neck, confusion, difficulty breathing, rash, or persistent vomiting
  - You have underlying health conditions or a weakened immune system
  - You've recently traveled to an area with endemic infectious diseases
  - You have severe pain anywhere in the body

- **Tests that might be needed**:
  - Physical examination
  - Blood tests to check for infection or inflammation
  - Specific tests for suspected infections (strep test, COVID-19 test, etc.)
  - Urine tests if urinary symptoms are present
  - Chest X-ray if respiratory symptoms are present

- **Timeframes**:
  - For mild fever (<101°F/38.3°C) with no concerning symptoms: Self-care for 2-3 days
  - If no improvement after 3 days: Consult a healthcare provider
  - For high fever or concerning symptoms as described above: Seek medical attention within 24 hours
  - For very high fever (>104°F/40°C) or severe symptoms: Seek immediate medical attention

*Disclaimer: This information is not a substitute for professional medical advice, diagnosis, or treatment. Always seek the advice of your physician or other qualified health provider with any questions you may have regarding a medical condition.*"

/-- The cough-category canned response (source lines 216-275). -/
def coughResponseText : String := "## Potential Diagnosis
- **Common cold** (High likelihood): Viral infection causing upper respiratory symptoms including cough.
- **Bronchitis** (Moderate likelihood): Inflammation of the bronchial tubes, often following a cold or respiratory infection.
- **Allergies** (Moderate likelihood): Environmental allergens can trigger coughing, especially with other symptoms like sneezing or itchy eyes.
- **Asthma** (Low likelihood): Chronic condition with coughing, wheezing, and shortness of breath, often triggered by specific factors.
- **COVID-19** (Low to moderate likelihood): Viral infection with symptoms including cough, fever, and fatigue.

## Recommendations
- **Over-the-counter medications**:
  - Cough suppressants (dextromethorphan) for dry, hacking coughs
  - Expectorants (guaifenesin) to help clear mucus from a productive cough
  - Throat lozenges or sprays for sore throat associated with coughing
  - Antihistamines if allergies are suspected

- **Home remedies**:
  - Stay hydrated with warm liquids like tea with honey and lemon
  - Use a humidifier or take steamy showers to moisten airways
  - Gargle with salt water for sore throat relief
  - Elevate your head while sleeping to reduce nighttime coughing
  - Avoid irritants like smoke, dust, or strong fragrances

- **Lifestyle changes**:
  - Get adequate rest to support immune function
  - Avoid smoking and secondhand smoke
  - Maintain good indoor air quality
  - Practice good hand hygiene to prevent spreading infection

## Severity Assessment
**LOW to MEDIUM severity condition**

The severity depends on:
- Duration and intensity of cough
- Presence of other symptoms (fever, shortness of breath, chest pain)
- Color and amount of phlegm/mucus (if present)
- Impact on daily activities and sleep

Most coughs are LOW severity and resolve with self-care, but can be MEDIUM severity if persistent or accompanied by concerning symptoms.

## Follow-up Recommendations
- **See a doctor if**:
  - Cough persists for more than 3 weeks
  - Cough produces thick, greenish-yellow, or blood-tinged mucus
  - Cough is accompanied by shortness of breath, wheezing, or chest pain
  - You have a high fever (above 101°F/38.3°C) for more than 3 days
  - You have underlying conditions like asthma, COPD, or heart disease
  - Cough significantly disrupts sleep or daily activities

- **Tests that might be needed**:
  - Physical examination with lung assessment
  - Chest X-ray if pneumonia is suspected
  - Pulmonary function tests if asthma is suspected
  - COVID-19 or other respiratory pathogen testing
  - Sputum culture if bacterial infection is suspected

- **Timeframes**:
  - For typical viral cough: Self-care for 1-2 weeks
  - If no improvement after 3 weeks: Consult a healthcare provider
  - For severe symptoms (difficulty breathing, high fever, chest pain): Seek immediate medical attention

*Disclaimer: This information is not a substitute for professional medical advice, diagnosis, or treatment. Always seek the advice of your physician or other qualified health provider with any questions you may have regarding a medical condition.*"

/-- The digestive-category canned response (source lines 280-342). -/
def stomachResponseText : String := "## Potential Diagnosis
- **Gastroenteritis** (High likelihood): Commonly known as stomach flu, caused by viral or bacterial infection.
- **Food poisoning** (Moderate likelihood): Caused by consuming contaminated food or beverages.
- **Irritable Bowel Syndrome (IBS)** (Moderate likelihood): A chronic condition affecting the large intestine.
- **Acid reflux/GERD** (Low likelihood): When stomach acid flows back into the esophagus.
- **Medication side effects** (Low likelihood): Many medications can cause digestive symptoms.

## Recommendations
- **Over-the-counter medications**:
  - Antacids (Tums, Rolaids) for heartburn or indigestion
  - Anti-diarrheal medications (Imodium) for diarrhea
  - Anti-nausea medications (Dramamine, Pepto-Bismol)
  - Stool softeners for constipation

- **Home remedies**:
  - Stay hydrated with clear fluids, especially water and electrolyte solutions
  - Follow the BRAT diet (bananas, rice, applesauce, toast) for diarrhea
  - Ginger tea or peppermint tea for nausea
  - Warm compress on the abdomen for cramps
  - Probiotics to restore gut flora

- **Lifestyle changes**:
  - Eat smaller, more frequent meals
  - Avoid trigger foods (spicy, fatty, acidic foods)
  - Limit alcohol and caffeine consumption
  - Manage stress through relaxation techniques
  - Stay upright for 1-2 hours after eating

## Severity Assessment
**LOW to MEDIUM severity condition**

The severity depends on:
- Duration and intensity of symptoms
- Presence of dehydration
- Presence of blood in stool or vomit
- Fever and other systemic symptoms
- Impact on daily activities

Most digestive issues are LOW severity and resolve with self-care, but can be MEDIUM severity if persistent or causing dehydration.

## Follow-up Recommendations
- **See a doctor if**:
  - Symptoms persist for more than 3 days
  - You have signs of dehydration (extreme thirst, dry mouth, little or no urination, severe weakness)
  - You have blood in vomit or stool
  - You have severe abdominal pain
  - You have a fever above 101°F (38.3°C)
  - You have recently traveled internationally
  - You have unexplained weight loss

- **Tests that might be needed**:
  - Physical examination
  - Blood tests to check for infection or inflammation
  - Stool sample analysis
  - Endoscopy or colonoscopy for persistent symptoms
  - Imaging studies (ultrasound, CT scan) for severe or persistent pain

- **Timeframes**:
  - For typical viral gastroenteritis: Self-care for 1-3 days
  - If no improvement after 3 days: Consult a healthcare provider
  - For severe symptoms (intense pain, persistent vomiting, signs of dehydration): Seek medical attention within 24 hours

*Disclaimer: This information is not a substitute for professional medical advice, diagnosis, or treatment. Always seek the advice of your physician or other qualified health provider with any questions you may have regarding a medical condition.*"

/-- The generic fallback response (source lines 347-369). -/
def genericResponseText : String := "## Medical Analysis

Based on the symptoms you've described, I can provide some general guidance. However, without a valid API connection, I can only offer limited information.

## Recommendations
- Monitor your symptoms and note any changes
- Stay hydrated and get adequate rest
- Consider over-the-counter medications appropriate for your symptoms
- Practice good hygiene to prevent spreading any potential infection

## Severity Assessment
Without more specific analysis, it's difficult to assess the severity of your condition. Please use your best judgment based on:
- How long you've had these symptoms
- Whether they're getting better or worse
- How much they impact your daily activities
- Whether you have any underlying health conditions

## Follow-up Recommendations
- If symptoms persist for more than a few days, consult a healthcare provider
- If symptoms are severe or rapidly worsening, seek medical attention promptly
- Consider a telehealth appointment if you prefer not to visit a medical facility

*Disclaimer: This information is not a substitute for professional medical advice, diagnosis, or treatment. Always seek the advice of your physician or other qualified health provider with any questions you may have regarding a medical condition.*"

/-- `get_fallback_response` (source lines 85-369): keyword-matched static
fallback, categories checked in source order (headache, fever, cough,
digestive, generic). -/
def get_fallback_response (symptoms : String) : String :=
  let symptomsLower := strLower symptoms
  if containsAnyTerm symptomsLower headacheTerms then headacheResponseText
  else if containsAnyTerm symptomsLower feverTerms then feverResponseText
  else if containsAnyTerm symptomsLower coughTerms then coughResponseText
  else if containsAnyTerm symptomsLower stomachTerms then stomachResponseText
  else genericResponseText

/-- The error string of the unreachable post-loop return
(source line 661). -/
def noModelsErrorText : String := "Error: No models were able to process your request."

/-- Candidate-list construction of `analyze_symptoms` (source lines
516-521): `models_to_try = MODELS_TO_TRY.copy()`; if a requested model is
truthy and in the registry it is removed and re-inserted at index 0;
otherwise the request is left untouched (an unknown name is ignored). -/
def buildModelsToTry (registry : List String) (model : Option String) : List String :=
  match model with
  | none => registry
  | some m => if !m.isEmpty && registry.contains m then m :: registry.erase m else registry

/-- Embeds `MODELS_TO_TRY[0], MODELS_TO_TRY[i] = MODELS_TO_TRY[i],
MODELS_TO_TRY[0]` (source line 632): swap positions `0` and `i`.  In the
source both indices are always in range (`i` indexes a permutation of
the registry); out-of-range indices are returned unchanged here. -/
def swapHead (l : List String) (i : Nat) : List String :=
  match l.get? 0, l.get? i with
  | some a, some b => (l.set 0 b).set i a
  | _, _ => l

/-- Mutable program state of module `mcp_server.doctor_tool` /
`advanced_mcp_server` that the dispatch layer reads and writes:
the registry order (`MODELS_TO_TRY`, mutated by the promotion swap),
the performance scoreboard (`model_performance`) and the response cache
(`response_cache`).  `perf` and `cache` are association lists embedding
Python dicts (insertion-ordered, unique keys in source states). -/
structure PerfRecord where
  avg_time : ℚ
  success_rate : ℚ
deriving DecidableEq

/-- One cache entry: `{"response": ..., "timestamp": ...}`
(source `advanced_mcp_server.py` lines 220-223). -/
structure CacheEntry where
  response : String
  timestamp : ℚ
deriving DecidableEq

structure ProgState where
  registry : List String
  perf : List (String × PerfRecord)
  cache : List (String × CacheEntry)
deriving DecidableEq

/-- The sequential loop of `analyze_symptoms` (source lines 524-658),
parameterized by the remote-call oracle.  `callList` is the per-call
`models_to_try`, `i` the running loop index, `registry` the module-level
`MODELS_TO_TRY`.  On success at index `i > 0` the registry positions `0`
and `i` are swapped (lines 630-633); on failure at the last index the
static fallback is returned (line 654); an empty list falls through to
the unreachable error return (line 661).  The loop never touches the
performance tracker or the cache. -/
def seqLoop (oracle : String → Option String) (symptoms : String)
    (registry : List String) : List String → Nat → String × List String
  | [], _ => (noModelsErrorText, registry)
  | m :: rest, i =>
    match oracle m with
    | some text => (text, if i > 0 then swapHead registry i else registry)
    | none =>
      match rest with
      | [] => (get_fallback_response symptoms, registry)
      | _ :: _ => seqLoop oracle symptoms registry rest (i + 1)

/-- `analyze_symptoms` (source lines 421-681) as a state transformer:
returns the response text and the new program state.  `useFallback`
embeds the module-level `USE_FALLBACK or client is None` check (line
436).  The performance scoreboard and the cache pass through unchanged —
`analyze_symptoms` contains no call to `update_model_performance` or
`cache_response`; only the registry order can change (promotion swap). -/
def analyze_symptoms (useFallback : Bool) (oracle : String → Option String)
    (symptoms : String) (model : Option String) (st : ProgState) : String × ProgState :=
  if useFallback then (get_fallback_response symptoms, st)
  else
    let callList := buildModelsToTry st.registry model
    let r := seqLoop oracle symptoms st.registry callList 0
    (r.1, { st with registry := r.2 })

/-- The backends that receive a network call during one sequential pass:
every candidate up to and including the first success (each loop
iteration posts the HTTP request before observing the outcome). -/
def attemptedBackends (oracle : String → Option String) : List String → List String
  | [] => []
  | m :: rest =>
    match oracle m with
    | some _ => [m]
    | none => m :: attemptedBackends oracle rest

end DoctorTool

namespace AdvServer

open DoctorTool (PerfRecord CacheEntry ProgState)

/-- `MODELS_TO_TRY` from `src/doctor-app/advanced_mcp_server.py`
(lines 54-66), the registry of the advanced server. -/
def MODELS_TO_TRY : List String :=
  [ "mistralai/mistral-7b-instruct:free",
    "qwen/qwen1.5-7b-chat:free",
    "anthropic/claude-3-haiku-20240307:free",
    "google/gemma-7b-it:free",
    "mistralai/mistral-small-3.1-24b-instruct:free",
    "deepseek/deepseek-chat-v3-0324:free",
    "qwen/qwen2.5-vl-32b-instruct:free",
    "cognitivecomputations/dolphin3.0-r1-mistral-24b:free" ]

/-- Dict lookup `model_performance.get(model)`: first binding of the key
in the association list. -/
def lookupPerf (st : List (String × PerfRecord)) (m : String) : Option PerfRecord :=
  (st.find? (fun p => p.1 == m)).map (fun p => p.2)

/-- `model_performance = {model: {"avg_time": 15.0, "success_rate": 0.9}
for model in MODELS_TO_TRY}` (source line 124). -/
def model_performance : List (String × PerfRecord) :=
  MODELS_TO_TRY.map (fun m => (m, ⟨15, 0.9⟩))

/-- `update_model_performance` (source lines 143-156).  A model absent
from the scoreboard gets its record set wholesale to
`{"avg_time": response_time, "success_rate": 1.0 or 0.0}` (lines
145-147); a present model gets the two weighted moving averages
`avg*0.8 + rt*0.2` and `rate*0.9 + new*0.1` (lines 149-156). -/
def update_model_performance (st : List (String × PerfRecord)) (model : String)
    (response_time : ℚ) (success : Bool) : List (String × PerfRecord) :=
  if lookupPerf st model = none then
    st ++ [(model, ⟨response_time, if success then 1 else 0⟩)]
  else
    st.map (fun p =>
      if p.1 == model then
        (p.1, ⟨p.2.avg_time * 0.8 + response_time * 0.2,
               p.2.success_rate * 0.9 + (if success then (1 : ℚ) else 0) * 0.1⟩)
      else p)

/-- A finite sequence of `update_model_performance` calls applied in
order (model, response_time, success). -/
def applyUpdates (st : List (String × PerfRecord))
    (updates : List (String × ℚ × Bool)) : List (String × PerfRecord) :=
  List.foldl (fun s u => update_model_performance s u.1 u.2.1 u.2.2) st updates

/-- `complexity = min(1.0, len(symptoms) / 500)` (source line 130). -/
def complexityOf (symptoms : String) : ℚ :=
  min 1 ((symptoms.length : ℚ) / 500)

/-- The per-model score of `select_best_model` (source line 137):
`(avg_time * (0.5 + 0.5*complexity)) / success_rate**2`.  The lookup
`model_performance[model]` cannot fail in the source (every registry
model is initialized at line 124); absent keys default to the same
initial record here. -/
def modelScore (st : List (String × PerfRecord)) (symptoms : String) (m : String) : ℚ :=
  let perf := (lookupPerf st m).getD ⟨15, 0.9⟩
  perf.avg_time * (0.5 + 0.5 * complexityOf symptoms) / perf.success_rate ^ 2

/-- Embeds Python's `min(iterable, key=f)` over `first :: rest`: keeps
the current best and replaces it only on a strictly smaller key, hence
returns the first minimizer in iteration order. -/
def pythonMinBy (f : String → ℚ) (first : String) (rest : List String) : String :=
  rest.foldl (fun best m => if f m < f best then m else best) first

/-- `select_best_model` (source lines 127-140): the registry model with
the lowest score, ties resolved to the earlier registry position
(`min(scores, key=scores.get)` iterates the dict in insertion order,
which is registry order).  The registry is statically nonempty; the
empty case mirrors Python's `min` on an empty dict being unreachable. -/
def select_best_model (st : List (String × PerfRecord)) (symptoms : String) : String :=
  match MODELS_TO_TRY with
  | [] => ""
  | m :: rest => pythonMinBy (modelScore st symptoms) m rest

/-- `get_cache_key` (source lines 198-204), with Python's builtin `hash`
as the opaque parameter `h` (interpreter-dependent).  `%` on a positive
modulus agrees between Python and `Int.emod`.  A falsy (empty or absent)
model yields the bare hash key. -/
def get_cache_key (h : String → ℤ) (symptoms : String) (model : Option String) : String :=
  let symptomsHash : ℤ := h symptoms % 10000
  match model with
  | some m => if m.isEmpty then toString symptomsHash else toString symptomsHash ++ "_" ++ m
  | none => toString symptomsHash

/-- Python dict assignment `d[k] = v`: overwrite the existing binding in
place, or append a new binding. -/
def dictInsert (cache : List (String × CacheEntry)) (k : String) (v : CacheEntry) :
    List (String × CacheEntry) :=
  if (cache.find? (fun p => p.1 == k)).isSome then
    cache.map (fun p => if p.1 == k then (k, v) else p)
  else cache ++ [(k, v)]

/-- `get_cached_response` (source lines 206-215): a hit only while
`now - timestamp < 3600`; a stale or missing entry is absent. -/
def get_cached_response (h : String → ℤ) (cache : List (String × CacheEntry))
    (symptoms : String) (model : Option String) (now : ℚ) : Option String :=
  let key := get_cache_key h symptoms model
  match cache.find? (fun p => p.1 == key) with
  | some p => if now - p.2.timestamp < 3600 then some p.2.response else none
  | none => none

/-- `cache_response` (source lines 217-224): unconditional overwrite,
stamped with the current time. -/
def cache_response (h : String → ℤ) (cache : List (String × CacheEntry))
    (symptoms response : String) (model : Option String) (now : ℚ) :
    List (String × CacheEntry) :=
  dictInsert cache (get_cache_key h symptoms model) ⟨response, now⟩

/-- One concurrent attempt of `try_models_parallel`, with deterministic
completion semantics: `time` is the instant the task reaches a terminal
state, `outcome` is `task.result()` — `.ok text` for a normal return,
`.error e` for a raised exception (caught at source lines 185-186). -/
instance : DecidableEq (Except String String) := fun a b =>
  match a, b with
  | .ok x, .ok y =>
    if h : x = y then .isTrue (by rw [h]) else .isFalse (fun hh => by cases hh; exact h rfl)
  | .error x, .error y =>
    if h : x = y then .isTrue (by rw [h]) else .isFalse (fun hh => by cases hh; exact h rfl)
  | .ok _, .error _ => .isFalse (fun hh => by cases hh)
  | .error _, .ok _ => .isFalse (fun hh => by cases hh)

structure TaskSpec where
  time : ℚ
  outcome : Except String String
deriving DecidableEq

/-- The result dict of `try_models_parallel`
(`{"result": ..., "success": ...}`). -/
structure ParallelOutcome where
  result : String
  success : Bool
deriving DecidableEq

/-- Completion times of the tasks that can finish within the overall
timeout. -/
def completionTimes (tasks : List TaskSpec) (timeout : ℚ) : List ℚ :=
  (tasks.filter (fun t => decide (t.time ≤ timeout))).map (fun t => t.time)

/-- The minimum of a list of rationals (`none` on the empty list). -/
def minQ : List ℚ → Option ℚ
  | [] => none
  | x :: xs =>
    match minQ xs with
    | none => some x
    | some m => some (min x m)

/-- `asyncio.wait(tasks, timeout=timeout, return_when=FIRST_COMPLETED)`
under deterministic completion times: it returns at the instant the
earliest task finishes (if within the timeout), with `done` = the tasks
that have finished at that instant and everything else still pending
(and subsequently cancelled, source lines 175-176). -/
def doneTasks (tasks : List TaskSpec) (timeout : ℚ) : List TaskSpec :=
  match minQ (completionTimes tasks timeout) with
  | none => []
  | some tmin => tasks.filter (fun t => decide (t.time = tmin))

/-- Python's `result.startswith("Error:")` (on the character list). -/
def strStartsWith (s pat : String) : Bool :=
  charListPrefixOf pat.data s.data

/-- The result scan over the `done` set (source lines 180-186): the
first task whose `result()` does not raise and whose text is truthy and
does not start with `"Error:"` wins. -/
def firstDoneSuccess : List TaskSpec → Option String
  | [] => none
  | t :: rest =>
    match t.outcome with
    | .ok r => if !r.isEmpty && !(strStartsWith r "Error:") then some r else firstDoneSuccess rest
    | .error _ => firstDoneSuccess rest

/-- The all-failed result text of `try_models_parallel` (source line 189). -/
def allModelsFailedText : String := "All models failed to provide a response in time."

/-- `try_models_parallel` (source lines 160-195): wait for the first
completion within `timeout`; if it is a valid success return it, else
cancel everything still pending and report failure.  (The
`asyncio.TimeoutError` branch at lines 191-195 is unreachable:
`asyncio.wait` does not raise on timeout.) -/
def try_models_parallel (tasks : List TaskSpec) (timeout : ℚ) : ParallelOutcome :=
  match firstDoneSuccess (doneTasks tasks timeout) with
  | some r => ⟨r, true⟩
  | none => ⟨allModelsFailedText, false⟩

/-- `doctor_tool_impl` (source lines 227-278), the dispatcher facade,
with its collaborators' outcomes injected: `cached` is the
`get_cached_response` result, `primary` the `doctor_agent.run` outcome
(`none` = the call raised, entering the `except` block at line 262),
`par` the `try_models_parallel` result, and the final stage is
`analyze_symptoms(symptoms)` with no model argument (line 278).  The
tracker and cache writes of the success paths do not affect the returned
text and are not threaded here. -/
def doctor_tool_impl (cached : Option String) (primary : Option String)
    (par : ParallelOutcome) (useFallback : Bool) (oracle : String → Option String)
    (symptoms : String) (st : ProgState) : String :=
  match cached with
  | some r => r
  | none =>
    match primary with
    | some result => result
    | none =>
      if par.success then par.result
      else (DoctorTool.analyze_symptoms useFallback oracle symptoms none st).1

end AdvServer

/-! ## Association-list lemmas (dict lookup / update) -/

section DictLemmas

variable {β : Type}

lemma find?_map_keyfix (l : List (String × β)) (f : String × β → String × β)
    (hf : ∀ p, (f p).1 = p.1) (k : String) :
    (l.map f).find? (fun p => p.1 == k) = (l.find? (fun p => p.1 == k)).map f := by
  induction l with
  | nil => rfl
  | cons p t ih =>
    by_cases h : p.1 = k
    · simp only [List.map_cons, List.find?_cons]
      rw [show ((f p).1 == k) = true from by rw [hf p]; exact beq_iff_eq.mpr h,
        show (p.1 == k) = true from beq_iff_eq.mpr h]
      rfl
    · simp only [List.map_cons, List.find?_cons]
      rw [show ((f p).1 == k) = false from by rw [hf p]; exact beq_eq_false_iff_ne.mpr h,
        show (p.1 == k) = false from beq_eq_false_iff_ne.mpr h]
      exact ih

lemma find?_singleton_self (k : String) (v : β) :
    ([(k, v)].find? (fun p => p.1 == k)) = some (k, v) := by
  simp [List.find?]

lemma find?_append_key (l : List (String × β)) (k k' : String) (v : β) (hk : k' ≠ k) :
    ((l ++ [(k, v)]).find? (fun p => p.1 == k')) = l.find? (fun p => p.1 == k') := by
  rw [List.find?_append]
  have hsingle : ([(k, v)].find? (fun p => p.1 == k')) = none := by
    simp [List.find?, beq_eq_false_iff_ne.mpr (fun h => hk h.symm)]
  rw [hsingle]
  cases l.find? (fun p => p.1 == k') <;> rfl

end DictLemmas

namespace AdvServer

open DoctorTool (PerfRecord CacheEntry ProgState)

lemma lookupPerf_map_keyfix (st : List (String × PerfRecord))
    (f : String × PerfRecord → String × PerfRecord) (hf : ∀ p, (f p).1 = p.1) (k : String) :
    lookupPerf (st.map f) k = ((st.find? (fun p => p.1 == k)).map f).map (fun p => p.2) := by
  unfold lookupPerf
  rw [find?_map_keyfix st f hf k]

/-- The key-preservation of the EMA rewrite inside
`update_model_performance`. -/
lemma updateFn_keyfix (model : String) (rt : ℚ) (s : Bool) (p : String × PerfRecord) :
    ((if p.1 == model then
        ((p.1, ⟨p.2.avg_time * 0.8 + rt * 0.2,
                p.2.success_rate * 0.9 + (if s then (1 : ℚ) else 0) * 0.1⟩) :
          String × PerfRecord)
      else p)).1 = p.1 := by
  split <;> rfl

/-- A present key gets exactly the two weighted moving averages. -/
lemma lookupPerf_update_self (st : List (String × PerfRecord)) (model : String)
    (rt : ℚ) (s : Bool) (r : PerfRecord) (h : lookupPerf st model = some r) :
    lookupPerf (update_model_performance st model rt s) model
      = some ⟨r.avg_time * 0.8 + rt * 0.2,
              r.success_rate * 0.9 + (if s then (1 : ℚ) else 0) * 0.1⟩ := by
  unfold update_model_performance
  rw [if_neg (h ▸ (by simp : (some r : Option PerfRecord) ≠ none))]
  obtain ⟨p, hp, hp2⟩ : ∃ p, st.find? (fun q => q.1 == model) = some p ∧ p.2 = r := by
    unfold lookupPerf at h
    cases hfind : st.find? (fun q => q.1 == model) with
    | none => rw [hfind] at h; exact absurd h (by simp)
    | some p => rw [hfind] at h; exact ⟨p, rfl, by simpa using h⟩
  have hkey : (p.1 == model) = true := by simpa using List.find?_some hp
  rw [lookupPerf_map_keyfix st _ (updateFn_keyfix model rt s) model, hp]
  dsimp only [Option.map]
  rw [if_pos hkey, hp2]

/-- Updating one model leaves every other model's record unchanged. -/
lemma lookupPerf_update_other (st : List (String × PerfRecord)) (model m : String)
    (rt : ℚ) (s : Bool) (hm : m ≠ model) :
    lookupPerf (update_model_performance st model rt s) m = lookupPerf st m := by
  unfold update_model_performance
  by_cases hfind : lookupPerf st model = none
  · rw [if_pos hfind]
    unfold lookupPerf
    rw [find?_append_key st model m _ hm]
  · rw [if_neg hfind]
    rw [lookupPerf_map_keyfix st _ (updateFn_keyfix model rt s) m]
    unfold lookupPerf
    cases hf : st.find? (fun q => q.1 == m) with
    | none => rfl
    | some p =>
      have hkey : p.1 = m := beq_iff_eq.mp (by simpa using List.find?_some hf)
      have hne : (p.1 == model) = false := beq_eq_false_iff_ne.mpr (hkey ▸ hm)
      dsimp only [Option.map]
      rw [if_neg (fun hc => Bool.false_ne_true (hne ▸ hc))]

/-- Every registry model starts with the neutral default record
(`model_performance` initialization, source line 124). -/
lemma lookupPerf_init_of_mem (l : List String) (d : PerfRecord) (m : String) (hm : m ∈ l) :
    lookupPerf (l.map (fun x => (x, d))) m = some d := by
  induction l with
  | nil => exact absurd hm (List.not_mem_nil m)
  | cons a t ih =>
    unfold lookupPerf
    simp only [List.map_cons, List.find?_cons]
    by_cases ha : a = m
    · rw [show (((a, d) : String × PerfRecord).1 == m) = true from beq_iff_eq.mpr ha]
      rfl
    · rw [show (((a, d) : String × PerfRecord).1 == m) = false from beq_eq_false_iff_ne.mpr ha]
      have hmt : m ∈ t := by
        rcases List.mem_cons.mp hm with h | h
        · exact absurd h.symm ha
        · exact h
      exact ih hmt

/-- The key-preservation of the overwrite inside `dictInsert` (the
rewritten binding keeps the matched key). -/
lemma insertFn_keyfix (k : String) (v : CacheEntry) (p : String × CacheEntry) :
    ((if p.1 == k then ((k, v) : String × CacheEntry) else p)).1 = p.1 := by
  split
  · next hp => exact (beq_iff_eq.mp hp).symm
  · rfl

lemma find?_dictInsert (c : List (String × CacheEntry)) (k : String) (v : CacheEntry) :
    (dictInsert c k v).find? (fun p => p.1 == k) = some (k, v) := by
  unfold dictInsert
  by_cases h : (c.find? (fun p => p.1 == k)).isSome
  · rw [if_pos h]
    rw [find?_map_keyfix c _ (insertFn_keyfix k v) k]
    obtain ⟨p, hp⟩ := Option.isSome_iff_exists.mp h
    rw [hp]
    have hkey : (p.1 == k) = true := by simpa using List.find?_some hp
    dsimp only [Option.map]
    rw [if_pos hkey]
  · rw [if_neg h]
    rw [List.find?_append, Option.not_isSome_iff_eq_none.mp h, find?_singleton_self]
    rfl

end AdvServer

/-! ## Claim C5 : cache round-trip with lazy TTL expiry -/

namespace AdvServer

open DoctorTool (PerfRecord CacheEntry ProgState)

/-- Claim C5: for every key (symptoms, optional backend) and every text
`X`, `put(key, X)` at time `t0` followed by `get(key)` at time `t1` with
no intervening put returns `X` exactly when strictly less than 3600
seconds have elapsed, and absent once 3600 seconds or more have elapsed.
Quantified over the interpreter's string-hash function and the prior
cache contents. -/
theorem c5_theorem (h : String → ℤ) (cache : List (String × CacheEntry))
    (s X : String) (m : Option String) (t0 t1 : ℚ) :
    get_cached_response h (cache_response h cache s X m t0) s m t1
      = if t1 - t0 < 3600 then some X else none := by
  simp only [get_cached_response, cache_response]
  rw [find?_dictInsert]

/-- Claim C5 witness: a concrete put/get round trip 10 seconds apart
returns the stored text. -/
theorem c5_witness :
    get_cached_response (fun _ => 0) (cache_response (fun _ => 0) [] "sore throat" "X" none 0)
      "sore throat" none 10 = some "X" := by
  rw [c5_theorem (fun _ => 0) [] "sore throat" "X" none 0 10,
    if_pos (show (10 : ℚ) - 0 < 3600 by rw [sub_zero]; decide)]

end AdvServer

/-! ## Claims C3 and C4 : the performance tracker -/

namespace AdvServer

open DoctorTool (PerfRecord CacheEntry ProgState)

/-- Claim C3 counterexample: the backend name `"mystery-model"` has never
been attempted, so per the claim it should hold the neutral defaults
(15.0, 0.9) and its first update with elapsed 0 and success should
produce `avg = 15*0.8 + 0*0.2` and `rate = 0.9*0.9 + 1*0.1`.  The code's
absent-key branch (source lines 145-147) instead sets the record
wholesale to `(0, 1)`. -/
theorem c3_counterexample :
    lookupPerf (update_model_performance model_performance "mystery-model" 0 true)
        "mystery-model" = some ⟨0, 1⟩
    ∧ (⟨0, 1⟩ : PerfRecord) ≠ ⟨15 * 0.8 + 0 * 0.2, 0.9 * 0.9 + 1 * 0.1⟩ := by
  refine ⟨by rfl, fun hcontra => ?_⟩
  have h1 : (0 : ℚ) = 15 * 0.8 + 0 * 0.2 := congrArg PerfRecord.avg_time hcontra
  norm_num at h1

/-- Claim C3 (amended): for every backend that currently has a record in
the tracker — in particular every registry backend, which starts with the
neutral defaults `avg_latency = 15.0`, `success_rate = 0.9` — an update
sets the record to `avg' = 0.8*avg + 0.2*e` and
`rate' = 0.9*rate + 0.1*(1 if success else 0)`.  A name with no record
(only possible for a non-registry backend) instead gets its record set
wholesale to `(e, 1 if success else 0)`. -/
theorem c3_theorem :
    (∀ (st : List (String × PerfRecord)) (m : String) (rt : ℚ) (s : Bool) (r : PerfRecord),
      lookupPerf st m = some r →
      lookupPerf (update_model_performance st m rt s) m
        = some ⟨r.avg_time * 0.8 + rt * 0.2,
                r.success_rate * 0.9 + (if s then (1 : ℚ) else 0) * 0.1⟩)
    ∧ (∀ m ∈ MODELS_TO_TRY, lookupPerf model_performance m = some ⟨15, 0.9⟩) :=
  ⟨fun st m rt s r h => lookupPerf_update_self st m rt s r h,
   fun m hm => lookupPerf_init_of_mem MODELS_TO_TRY ⟨15, 0.9⟩ m hm⟩

/-- Claim C3 witness: one concrete successful update of the first
registry backend applies the two weighted moving averages to the neutral
defaults. -/
theorem c3_witness :
    lookupPerf (update_model_performance model_performance
        "mistralai/mistral-7b-instruct:free" 1 true) "mistralai/mistral-7b-instruct:free"
      = some ⟨(15 : ℚ) * 0.8 + 1 * 0.2, (0.9 : ℚ) * 0.9 + 1 * 0.1⟩
    ∧ lookupPerf model_performance "mistralai/mistral-7b-instruct:free" = some ⟨15, 0.9⟩ :=
  ⟨c3_theorem.1 model_performance "mistralai/mistral-7b-instruct:free" 1 true ⟨15, 0.9⟩
      (by rfl),
   c3_theorem.2 "mistralai/mistral-7b-instruct:free" (by decide)⟩

/-- One `update_model_performance` call preserves the tracker invariant
for any backend that already has a well-formed record. -/
lemma update_preserves_good (st : List (String × PerfRecord)) (model : String)
    (rt : ℚ) (s : Bool) (hrt : 0 ≤ rt) (m : String) (r : PerfRecord)
    (hm : lookupPerf st m = some r) (h1 : 0 < r.success_rate)
    (h2 : r.success_rate ≤ 1) (h3 : 0 ≤ r.avg_time) :
    ∃ q, lookupPerf (update_model_performance st model rt s) m = some q
      ∧ 0 < q.success_rate ∧ q.success_rate ≤ 1 ∧ 0 ≤ q.avg_time := by
  by_cases hmodel : m = model
  · subst hmodel
    refine ⟨_, lookupPerf_update_self st m rt s r hm, ?_, ?_, ?_⟩
    · have hind : (0 : ℚ) ≤ (if s then (1 : ℚ) else 0) := by split <;> norm_num
      have hpos : (0 : ℚ) < r.success_rate * 0.9 :=
        mul_pos h1 (by norm_num)
      have hind2 : (0 : ℚ) ≤ (if s then (1 : ℚ) else 0) * 0.1 :=
        mul_nonneg hind (by norm_num)
      show (0 : ℚ) < r.success_rate * 0.9 + (if s then (1 : ℚ) else 0) * 0.1
      linarith
    · have hub : r.success_rate * 0.9 ≤ 1 * 0.9 :=
        mul_le_mul_of_nonneg_right h2 (by norm_num)
      have hind : (if s then (1 : ℚ) else 0) ≤ 1 := by split <;> norm_num
      have hind2 : (if s then (1 : ℚ) else 0) * 0.1 ≤ 1 * 0.1 :=
        mul_le_mul_of_nonneg_right hind (by norm_num)
      show r.success_rate * 0.9 + (if s then (1 : ℚ) else 0) * 0.1 ≤ 1
      linarith
    · have ha : (0 : ℚ) ≤ r.avg_time * 0.8 := mul_nonneg h3 (by norm_num)
      have hb : (0 : ℚ) ≤ rt * 0.2 := mul_nonneg hrt (by norm_num)
      show (0 : ℚ) ≤ r.avg_time * 0.8 + rt * 0.2
      linarith
  · exact ⟨r, by rw [lookupPerf_update_other st model m rt s hmodel]; exact hm, h1, h2, h3⟩

/-- The tracker invariant survives any finite update sequence with
non-negative elapsed times. -/
lemma applyUpdates_preserves_good (updates : List (String × ℚ × Bool))
    (st : List (String × PerfRecord)) (m : String)
    (hups : ∀ u ∈ updates, 0 ≤ u.2.1)
    (h : ∃ r, lookupPerf st m = some r
      ∧ 0 < r.success_rate ∧ r.success_rate ≤ 1 ∧ 0 ≤ r.avg_time) :
    ∃ r, lookupPerf (applyUpdates st updates) m = some r
      ∧ 0 < r.success_rate ∧ r.success_rate ≤ 1 ∧ 0 ≤ r.avg_time := by
  induction updates generalizing st with
  | nil => exact h
  | cons u t ih =>
    obtain ⟨r, hm, h1, h2, h3⟩ := h
    exact ih (update_model_performance st u.1 u.2.1 u.2.2)
      (fun v hv => hups v (List.mem_cons_of_mem u hv))
      (update_preserves_good st u.1 u.2.1 u.2.2 (hups u (List.mem_cons_self u t)) m r hm h1 h2 h3)

/-- Claim C4: for every registry backend and after every finite sequence
of updates with non-negative elapsed times, `success_rate ∈ (0, 1]` —
in particular strictly positive, so the Selector's division by
`success_rate^2` never divides by zero — and `avg_latency ≥ 0`. -/
theorem c4_theorem (updates : List (String × ℚ × Bool))
    (hups : ∀ u ∈ updates, 0 ≤ u.2.1) (m : String) (hm : m ∈ MODELS_TO_TRY) :
    ∃ r, lookupPerf (applyUpdates model_performance updates) m = some r
      ∧ 0 < r.success_rate ∧ r.success_rate ≤ 1 ∧ 0 ≤ r.avg_time :=
  applyUpdates_preserves_good updates model_performance m hups
    ⟨⟨15, 0.9⟩, lookupPerf_init_of_mem MODELS_TO_TRY ⟨15, 0.9⟩ m hm,
      by norm_num, by norm_num, by norm_num⟩

/-- Claim C4 witness: after one concrete failed update of the first
registry backend, the invariant bounds still hold. -/
theorem c4_witness :
    ∃ r, lookupPerf (applyUpdates model_performance
        [("mistralai/mistral-7b-instruct:free", (2 : ℚ), false)])
        "mistralai/mistral-7b-instruct:free" = some r
      ∧ 0 < r.success_rate ∧ r.success_rate ≤ 1 ∧ 0 ≤ r.avg_time :=
  c4_theorem [("mistralai/mistral-7b-instruct:free", (2 : ℚ), false)]
    (by decide) "mistralai/mistral-7b-instruct:free" (by decide)

end AdvServer

/-! ## Claim C2 : the model selector -/

namespace AdvServer

open DoctorTool (PerfRecord CacheEntry ProgState)

/-- Python's `min(xs, key=f)` over `x :: l` returns an element of the
list that is `≤` everything and is preceded only by strictly greater
elements (the first minimizer in iteration order). -/
lemma pythonMinBy_spec (f : String → ℚ) (x : String) (l : List String) :
    ∃ l1 l2, x :: l = l1 ++ pythonMinBy f x l :: l2
      ∧ (∀ b ∈ x :: l, f (pythonMinBy f x l) ≤ f b)
      ∧ (∀ b ∈ l1, f (pythonMinBy f x l) < f b) := by
  induction l generalizing x with
  | nil =>
    refine ⟨[], [], rfl, ?_, by simp⟩
    intro b hb
    rcases List.mem_singleton.mp hb with h
    subst h
    exact le_refl _
  | cons y t ih =>
    have hstep : pythonMinBy f x (y :: t) = pythonMinBy f (if f y < f x then y else x) t := rfl
    by_cases h : f y < f x
    · rw [hstep, if_pos h]
      obtain ⟨l1, l2, hdec, hmin, hpre⟩ := ih y
      refine ⟨x :: l1, l2, ?_, ?_, ?_⟩
      · rw [List.cons_append, ← hdec]
      · intro b hb
        rcases List.mem_cons.mp hb with hb | hb
        · subst hb
          exact le_of_lt (lt_of_le_of_lt (hmin y (List.mem_cons_self y t)) h)
        · exact hmin b hb
      · intro b hb
        rcases List.mem_cons.mp hb with hb | hb
        · subst hb
          exact lt_of_le_of_lt (hmin y (List.mem_cons_self y t)) h
        · exact hpre b hb
    · rw [hstep, if_neg h]
      have hxy : f x ≤ f y := le_of_not_lt h
      obtain ⟨l1, l2, hdec, hmin, hpre⟩ := ih x
      cases l1 with
      | nil =>
        simp only [List.nil_append] at hdec
        obtain ⟨hx, ht⟩ : x = pythonMinBy f x t ∧ t = l2 := by
          have h1 := List.head_eq_of_cons_eq hdec
          have h2 := List.tail_eq_of_cons_eq hdec
          exact ⟨h1, h2⟩
        refine ⟨[], y :: l2, ?_, ?_, by simp⟩
        · rw [List.nil_append, ← hx, ← ht]
        · intro b hb
          rcases List.mem_cons.mp hb with hb | hb
          · rw [hb]
            exact hmin x (List.mem_cons_self x t)
          · rcases List.mem_cons.mp hb with hb | hb
            · subst hb
              exact le_trans (hmin x (List.mem_cons_self x t)) (hx ▸ hxy)
            · exact hmin b (List.mem_cons_of_mem x hb)
      | cons a t1 =>
        have hx : x = a := List.head_eq_of_cons_eq hdec
        have ht : t = t1 ++ pythonMinBy f x t :: l2 := List.tail_eq_of_cons_eq hdec
        have hfa : f (pythonMinBy f x t) < f a := hpre a (List.mem_cons_self a t1)
        refine ⟨x :: y :: t1, l2, ?_, ?_, ?_⟩
        · rw [List.cons_append, List.cons_append, ← ht]
        · intro b hb
          rcases List.mem_cons.mp hb with hb | hb
          · rw [hb]
            exact hmin x (List.mem_cons_self x t)
          · rcases List.mem_cons.mp hb with hb | hb
            · subst hb
              exact le_trans (le_of_lt (hx ▸ hfa)) hxy
            · exact hmin b (List.mem_cons_of_mem x hb)
        · intro b hb
          rcases List.mem_cons.mp hb with hb | hb
          · subst hb
            exact hx ▸ hfa
          · rcases List.mem_cons.mp hb with hb | hb
            · subst hb
              exact lt_of_lt_of_le (hx ▸ hfa) hxy
            · exact hpre b (List.mem_cons_of_mem a hb)

/-- Claim C2: `select_best_model` returns the registry backend whose
score `avg_latency * (0.5 + 0.5*complexity) / success_rate^2` is
minimal, with `complexity = min(1, len(input)/500)` clamped to `[0, 1]`;
on ties the backend earlier in registry order wins (the returned backend
is preceded in the registry only by strictly worse-scored ones). -/
theorem c2_theorem (st : List (String × PerfRecord)) (s : String) :
    (0 ≤ complexityOf s ∧ complexityOf s ≤ 1)
    ∧ ∃ l1 l2, MODELS_TO_TRY = l1 ++ select_best_model st s :: l2
      ∧ (∀ b ∈ MODELS_TO_TRY, modelScore st s (select_best_model st s) ≤ modelScore st s b)
      ∧ (∀ b ∈ l1, modelScore st s (select_best_model st s) < modelScore st s b) := by
  constructor
  · exact ⟨le_min (by norm_num) (by positivity), min_le_left _ _⟩
  · exact pythonMinBy_spec (modelScore st s) "mistralai/mistral-7b-instruct:free"
      [ "qwen/qwen1.5-7b-chat:free",
        "anthropic/claude-3-haiku-20240307:free",
        "google/gemma-7b-it:free",
        "mistralai/mistral-small-3.1-24b-instruct:free",
        "deepseek/deepseek-chat-v3-0324:free",
        "qwen/qwen2.5-vl-32b-instruct:free",
        "cognitivecomputations/dolphin3.0-r1-mistral-24b:free" ]

/-- Claim C2 witness: the selection property instantiated at the initial
tracker state and a concrete input. -/
theorem c2_witness :
    (0 ≤ complexityOf "fever and chills" ∧ complexityOf "fever and chills" ≤ 1)
    ∧ ∃ l1 l2, MODELS_TO_TRY
        = l1 ++ select_best_model model_performance "fever and chills" :: l2
      ∧ (∀ b ∈ MODELS_TO_TRY,
          modelScore model_performance "fever and chills"
              (select_best_model model_performance "fever and chills")
            ≤ modelScore model_performance "fever and chills" b)
      ∧ (∀ b ∈ l1,
          modelScore model_performance "fever and chills"
              (select_best_model model_performance "fever and chills")
            < modelScore model_performance "fever and chills" b) :=
  c2_theorem model_performance "fever and chills"

end AdvServer

/-! ## Claims C6, C7, C8 : the sequential executor -/

namespace DoctorTool

lemma contains_eq_false_of_not_mem (l : List String) (m : String) (h : m ∉ l) :
    l.contains m = false := by
  cases hc : l.contains m with
  | false => rfl
  | true => exact absurd (List.elem_iff.mp hc) h

/-- An explicit override naming a backend outside the registry leaves
the per-call candidate list untouched. -/
lemma buildModelsToTry_not_mem (registry : List String) (m : String) (h : m ∉ registry) :
    buildModelsToTry registry (some m) = registry := by
  simp only [buildModelsToTry]
  rw [contains_eq_false_of_not_mem registry m h]
  simp

/-- When every candidate fails, the nonempty sequential loop ends in the
static fallback and the registry is untouched. -/
lemma seqLoop_allFail (oracle : String → Option String) (s : String) (reg : List String) :
    ∀ (l : List String) (i : Nat), (∀ b ∈ l, oracle b = none) → l ≠ [] →
      seqLoop oracle s reg l i = (get_fallback_response s, reg) := by
  intro l
  induction l with
  | nil => intro i _ hne; exact absurd rfl hne
  | cons b t ih =>
    intro i h hne
    simp only [seqLoop, h b (List.mem_cons_self b t)]
    cases t with
    | nil => rfl
    | cons c u =>
      exact ih (i + 1) (fun v hv => h v (List.mem_cons_of_mem b hv)) (by simp)

/-- The loop walks past a failing prefix, advancing the loop index. -/
lemma seqLoop_skip (oracle : String → Option String) (s : String) (reg : List String)
    (m : String) (l2 : List String) :
    ∀ (l1 : List String) (i : Nat), (∀ b ∈ l1, oracle b = none) →
      seqLoop oracle s reg (l1 ++ m :: l2) i
        = seqLoop oracle s reg (m :: l2) (i + l1.length) := by
  intro l1
  induction l1 with
  | nil => intro i _; simp
  | cons b t ih =>
    intro i h
    have hstep : seqLoop oracle s reg ((b :: t) ++ m :: l2) i
        = seqLoop oracle s reg (t ++ m :: l2) (i + 1) := by
      rw [List.cons_append]
      cases hshape : t ++ m :: l2 with
      | nil => exact absurd hshape (by simp)
      | cons c u =>
        rw [seqLoop, h b (List.mem_cons_self b t)]
    rw [hstep, ih (i + 1) (fun v hv => h v (List.mem_cons_of_mem b hv)),
      show (i + 1) + t.length = i + (b :: t).length from by
        simp only [List.length_cons]; omega]

/-- A success at the head of the remaining list returns its text and
performs the index-`i` promotion swap. -/
lemma seqLoop_success (oracle : String → Option String) (s : String) (reg : List String)
    (m : String) (l2 : List String) (text : String) (i : Nat) (hm : oracle m = some text) :
    seqLoop oracle s reg (m :: l2) i = (text, if i > 0 then swapHead reg i else reg) := by
  simp only [seqLoop, hm]

/-- Swapping position 0 with the position of `m` puts `m` at the head. -/
lemma swapHead_head (l1 : List String) (m : String) (l2 : List String) (hl1 : l1 ≠ []) :
    (swapHead (l1 ++ m :: l2) l1.length).head? = some m := by
  cases l1 with
  | nil => exact absurd rfl hl1
  | cons a t =>
    have h0 : ((a :: t) ++ m :: l2).get? 0 = some a := rfl
    have h1 : ((a :: t) ++ m :: l2).get? (a :: t).length = some m := by
      rw [List.get?_append_right (le_refl (a :: t).length)]
      simp
    unfold swapHead
    rw [h0, h1]
    simp

/-- Claim C6 counterexample: the override `"unknown/model:free"` is not
in the registry, yet the candidate list is the untouched full registry,
all seven backends receive a network attempt (here under an all-failing
oracle), and the call returns the ordinary static-fallback text — no
`UnknownBackend` validation error exists anywhere in the code. -/
theorem c6_counterexample :
    buildModelsToTry MODELS_TO_TRY (some "unknown/model:free") = MODELS_TO_TRY
    ∧ attemptedBackends (fun _ => none)
        (buildModelsToTry MODELS_TO_TRY (some "unknown/model:free")) = MODELS_TO_TRY
    ∧ MODELS_TO_TRY ≠ []
    ∧ (analyze_symptoms false (fun _ => none) "chest pain" (some "unknown/model:free")
        ⟨MODELS_TO_TRY, [], []⟩).1 = get_fallback_response "chest pain" :=
  ⟨rfl, rfl, by decide, rfl⟩

/-- Claim C6 (amended): an explicit override naming a backend outside
the registry is silently ignored — the dispatch behaves exactly as if no
override had been given (same candidate list, same network attempts,
same result); no validation error is surfaced. -/
theorem c6_theorem (useFallback : Bool) (oracle : String → Option String)
    (s m : String) (st : ProgState) (h : m ∉ st.registry) :
    analyze_symptoms useFallback oracle s (some m) st
      = analyze_symptoms useFallback oracle s none st := by
  unfold analyze_symptoms
  rw [buildModelsToTry_not_mem st.registry m h]
  rfl

/-- Claim C6 witness: a concrete unknown override behaves exactly like
the no-override call. -/
theorem c6_witness :
    analyze_symptoms false (fun _ => none) "sym" (some "no-such-model")
        ⟨MODELS_TO_TRY, [], []⟩
      = analyze_symptoms false (fun _ => none) "sym" none ⟨MODELS_TO_TRY, [], []⟩ :=
  c6_theorem false (fun _ => none) "sym" "no-such-model" ⟨MODELS_TO_TRY, [], []⟩ (by decide)

/-- Claim C7 counterexample: with candidates `[A(fails), B(succeeds)]`
the sequential pass returns B's text, but the performance tracker is
bit-for-bit unchanged — `success_rate(A)` is not lower and
`success_rate(B)` is not higher, because the loop in `analyze_symptoms`
contains no call to `update_model_performance`. -/
theorem c7_counterexample :
    (analyze_symptoms false
        (fun b => if b = "model-B" then some "B text" else none) "sym" none
        ⟨["model-A", "model-B"],
         [("model-A", ⟨15, 0.9⟩), ("model-B", ⟨15, 0.9⟩)], []⟩).1 = "B text"
    ∧ (analyze_symptoms false
        (fun b => if b = "model-B" then some "B text" else none) "sym" none
        ⟨["model-A", "model-B"],
         [("model-A", ⟨15, 0.9⟩), ("model-B", ⟨15, 0.9⟩)], []⟩).2.perf
      = [("model-A", ⟨15, 0.9⟩), ("model-B", ⟨15, 0.9⟩)] :=
  ⟨rfl, rfl⟩

/-- Claim C7 (amended): with candidates `[A(fails), B(succeeds)]` the
sequential executor returns B's result text, and it leaves the
performance tracker (and the cache) unchanged; only the registry order
changes, by the promotion swap. -/
theorem c7_theorem (oracle : String → Option String) (s A B text : String)
    (perf : List (String × PerfRecord)) (cache : List (String × CacheEntry))
    (hA : oracle A = none) (hB : oracle B = some text) :
    analyze_symptoms false oracle s none ⟨[A, B], perf, cache⟩
      = (text, ⟨[B, A], perf, cache⟩) := by
  have hseq : seqLoop oracle s [A, B] [A, B] 0 = (text, [B, A]) := by
    simp [seqLoop, hA, hB, swapHead]
  unfold analyze_symptoms
  rw [if_neg Bool.false_ne_true]
  dsimp only
  rw [show buildModelsToTry [A, B] none = [A, B] from rfl, hseq]

/-- Claim C7 witness: the two-candidate scenario at concrete values. -/
theorem c7_witness :
    analyze_symptoms false (fun b => if b = "B" then some "ok" else none) "sym" none
        ⟨["A", "B"], [], []⟩ = ("ok", ⟨["B", "A"], [], []⟩) :=
  c7_theorem (fun b => if b = "B" then some "ok" else none) "sym" "A" "B" "ok" [] []
    rfl rfl

/-- Claim C8 counterexample: with the explicit override
`"deepseek/deepseek-chat-v3-0324:free"` (registry position 2) and an
oracle on which the override and the first registry model fail while
`"mistralai/mistral-small-3.1-24b-instruct:free"` succeeds at loop
position `i = 2`, the source swaps `MODELS_TO_TRY[0]` with
`MODELS_TO_TRY[2]` — indices of the *global* registry, not of the
per-call list — so element 0 becomes the failed override, not the
successful backend. -/
theorem c8_counterexample :
    (analyze_symptoms false
        (fun b => if b = "mistralai/mistral-small-3.1-24b-instruct:free"
          then some "advice" else none)
        "sym" (some "deepseek/deepseek-chat-v3-0324:free")
        ⟨MODELS_TO_TRY, [], []⟩).1 = "advice"
    ∧ (analyze_symptoms false
        (fun b => if b = "mistralai/mistral-small-3.1-24b-instruct:free"
          then some "advice" else none)
        "sym" (some "deepseek/deepseek-chat-v3-0324:free")
        ⟨MODELS_TO_TRY, [], []⟩).2.registry
      = [ "deepseek/deepseek-chat-v3-0324:free",
          "mistralai/mistral-small-3.1-24b-instruct:free",
          "qwen/qwen2.5-vl-32b-instruct:free",
          "deepseek/deepseek-r1-distill-qwen-32b:free",
          "cognitivecomputations/dolphin3.0-r1-mistral-24b:free",
          "qwen/qwq-32b-preview:free",
          "qwen/qwen2.5-vl-72b-instruct:free" ]
    ∧ ((analyze_symptoms false
        (fun b => if b = "mistralai/mistral-small-3.1-24b-instruct:free"
          then some "advice" else none)
        "sym" (some "deepseek/deepseek-chat-v3-0324:free")
        ⟨MODELS_TO_TRY, [], []⟩).2.registry).head?
        ≠ some "mistralai/mistral-small-3.1-24b-instruct:free" :=
  ⟨rfl, rfl, by decide⟩

/-- Claim C8 (amended): in a call without an explicit override (the
per-call list coincides with the registry), a success at loop position
`i > 0` — i.e. after a nonempty failing prefix — swaps the successful
backend into registry position 0, so it is element 0 of `MODELS_TO_TRY`
for subsequent calls.  With an override the swap indexes the global
registry with the per-call position and can promote a different
backend. -/
theorem c8_theorem (oracle : String → Option String) (s text m : String)
    (l1 l2 : List String) (perf : List (String × PerfRecord))
    (cache : List (String × CacheEntry))
    (hpre : ∀ b ∈ l1, oracle b = none) (hm : oracle m = some text) (hl1 : l1 ≠ []) :
    (analyze_symptoms false oracle s none ⟨l1 ++ m :: l2, perf, cache⟩).1 = text
    ∧ ((analyze_symptoms false oracle s none ⟨l1 ++ m :: l2, perf, cache⟩).2.registry).head?
        = some m := by
  have hrun : seqLoop oracle s (l1 ++ m :: l2) (l1 ++ m :: l2) 0
      = (text, swapHead (l1 ++ m :: l2) l1.length) := by
    rw [seqLoop_skip oracle s (l1 ++ m :: l2) m l2 l1 0 hpre]
    rw [seqLoop_success oracle s (l1 ++ m :: l2) m l2 text (0 + l1.length) hm]
    rw [if_pos (by simpa using List.length_pos.mpr hl1), Nat.zero_add]
  unfold analyze_symptoms
  rw [if_neg Bool.false_ne_true]
  dsimp only
  rw [show buildModelsToTry (l1 ++ m :: l2) none = l1 ++ m :: l2 from rfl, hrun]
  exact ⟨rfl, swapHead_head l1 m l2 hl1⟩

/-- Claim C8 witness: with no override, candidates `[A, B]`, A failing
and B succeeding at position 1, B becomes element 0 of the registry. -/
theorem c8_witness :
    (analyze_symptoms false (fun b => if b = "B" then some "t" else none) "sym" none
        ⟨["A"] ++ "B" :: [], [], []⟩).1 = "t"
    ∧ ((analyze_symptoms false (fun b => if b = "B" then some "t" else none) "sym" none
        ⟨["A"] ++ "B" :: [], [], []⟩).2.registry).head? = some "B" :=
  c8_theorem (fun b => if b = "B" then some "t" else none) "sym" "t" "B" ["A"] [] [] []
    (by decide) rfl (by decide)

end DoctorTool

/-! ## Claim C1 : the dispatcher under full exhaustion -/

namespace AdvServer

open DoctorTool (PerfRecord CacheEntry ProgState)

/-- The keyword matcher resolves to the fever category exactly when no
headache-category keyword matches and some fever-category keyword does
(headache keywords are checked first, source lines 89 and 150). -/
lemma get_fallback_response_fever (s : String)
    (hhead : containsAnyTerm (strLower s) DoctorTool.headacheTerms = false)
    (hfever : containsAnyTerm (strLower s) DoctorTool.feverTerms = true) :
    DoctorTool.get_fallback_response s = DoctorTool.feverResponseText := by
  simp [DoctorTool.get_fallback_response, hhead, hfever]

/-- Claim C1 counterexample: the input `"headache and fever"` contains
`"fever"`, yet the fully-exhausted dispatcher (cache miss, primary
attempt raised, parallel stage failed, every sequential candidate
failing) returns the headache-category canned response, because
`get_fallback_response` checks the headache keywords first. -/
theorem c1_counterexample :
    strContainsSub (strLower "headache and fever") "fever" = true
    ∧ doctor_tool_impl none none ⟨allModelsFailedText, false⟩ false
        (fun _ => none) "headache and fever" ⟨DoctorTool.MODELS_TO_TRY, [], []⟩
      ≠ DoctorTool.feverResponseText := by
  refine ⟨by decide, fun hcontra => ?_⟩
  have hrun : doctor_tool_impl none none ⟨allModelsFailedText, false⟩ false
      (fun _ => none) "headache and fever" ⟨DoctorTool.MODELS_TO_TRY, [], []⟩
      = DoctorTool.headacheResponseText := rfl
  rw [hrun] at hcontra
  exact absurd hcontra (by decide)

/-- Claim C1 (amended): in the full-exhaustion scenario (cache miss, the
primary attempt raises, the parallel stage reports failure, every
remaining backend attempt fails), one dispatch call returns the
deterministic keyword-matched static fallback text — the embedding is a
total function, so the call always produces a string and no exception
escapes — and an input containing a fever keyword and no
headache-category keyword yields the fever-category canned response. -/
theorem c1_theorem (s : String) (st : ProgState) (oracle : String → Option String)
    (par : ParallelOutcome) (useFallback : Bool)
    (hpar : par.success = false) (horacle : ∀ b, oracle b = none)
    (hreg : st.registry ≠ [])
    (hhead : containsAnyTerm (strLower s) DoctorTool.headacheTerms = false)
    (hfever : containsAnyTerm (strLower s) DoctorTool.feverTerms = true) :
    doctor_tool_impl none none par useFallback oracle s st
      = DoctorTool.get_fallback_response s
    ∧ doctor_tool_impl none none par useFallback oracle s st
      = DoctorTool.feverResponseText := by
  have hmain : doctor_tool_impl none none par useFallback oracle s st
      = DoctorTool.get_fallback_response s := by
    unfold doctor_tool_impl
    dsimp only
    rw [hpar, if_neg Bool.false_ne_true]
    unfold DoctorTool.analyze_symptoms
    cases useFallback with
    | true => rfl
    | false =>
      rw [if_neg Bool.false_ne_true]
      dsimp only
      rw [show DoctorTool.buildModelsToTry st.registry none = st.registry from rfl]
      rw [DoctorTool.seqLoop_allFail oracle s st.registry st.registry 0
        (fun b _ => horacle b) hreg]
  exact ⟨hmain, hmain.trans (get_fallback_response_fever s hhead hfever)⟩

/-- Claim C1 witness: the concrete fever-only input under full
exhaustion yields the fever-category canned response. -/
theorem c1_witness :
    doctor_tool_impl none none ⟨allModelsFailedText, false⟩ false (fun _ => none)
        "i have a fever" ⟨DoctorTool.MODELS_TO_TRY, [], []⟩
      = DoctorTool.get_fallback_response "i have a fever"
    ∧ doctor_tool_impl none none ⟨allModelsFailedText, false⟩ false (fun _ => none)
        "i have a fever" ⟨DoctorTool.MODELS_TO_TRY, [], []⟩
      = DoctorTool.feverResponseText :=
  c1_theorem "i have a fever" ⟨DoctorTool.MODELS_TO_TRY, [], []⟩ (fun _ => none)
    ⟨allModelsFailedText, false⟩ false rfl (fun _ => rfl) (by decide) (by decide) (by decide)

end AdvServer

/-! ## Claim C9 : the parallel race executor -/

namespace AdvServer

open DoctorTool (PerfRecord CacheEntry ProgState)

lemma minQ_eq_none_iff (l : List ℚ) : minQ l = none ↔ l = [] := by
  cases l with
  | nil => simp [minQ]
  | cons x xs =>
    simp only [minQ]
    cases minQ xs <;> simp

lemma minQ_mem (l : List ℚ) (a : ℚ) (h : minQ l = some a) : a ∈ l := by
  induction l generalizing a with
  | nil => simp [minQ] at h
  | cons x xs ih =>
    cases hm : minQ xs with
    | none =>
      simp only [minQ, hm] at h
      exact (Option.some_inj.mp h) ▸ List.mem_cons_self x xs
    | some m =>
      simp only [minQ, hm] at h
      have ha : a = min x m := (Option.some_inj.mp h).symm
      rcases le_total x m with hle | hle
      · rw [ha, min_eq_left hle]
        exact List.mem_cons_self x xs
      · rw [ha, min_eq_right hle]
        exact List.mem_cons_of_mem x (ih m hm)

lemma minQ_le (l : List ℚ) (a : ℚ) (h : minQ l = some a) : ∀ x ∈ l, a ≤ x := by
  induction l generalizing a with
  | nil => simp
  | cons x xs ih =>
    intro y hy
    cases hm : minQ xs with
    | none =>
      simp only [minQ, hm] at h
      have hx : a = x := (Option.some_inj.mp h).symm
      have hxs : xs = [] := (minQ_eq_none_iff xs).mp hm
      rcases List.mem_cons.mp hy with hyx | hyxs
      · rw [hx, hyx]
      · rw [hxs] at hyxs
        exact absurd hyxs (List.not_mem_nil y)
    | some m =>
      simp only [minQ, hm] at h
      have ha : a = min x m := (Option.some_inj.mp h).symm
      rcases List.mem_cons.mp hy with hyx | hyxs
      · rw [ha, hyx]
        exact min_le_left x m
      · exact le_trans (ha ▸ min_le_right x m) (ih m hm y hyxs)

lemma minQ_eq_some (l : List ℚ) (t : ℚ) (h1 : t ∈ l) (h2 : ∀ x ∈ l, t ≤ x) :
    minQ l = some t := by
  cases hm : minQ l with
  | none =>
    rw [(minQ_eq_none_iff l).mp hm] at h1
    exact absurd h1 (List.not_mem_nil t)
  | some m =>
    have hmt : m ≤ t := minQ_le l m hm t h1
    have htm : t ≤ m := h2 m (minQ_mem l m hm)
    rw [le_antisymm hmt htm]

/-- Claim C9 counterexample: with candidate A failing at 50 ms and
candidate B succeeding at 200 ms — both well within the 30-second
overall timeout — the race returns the all-failed result instead of
keeping waiting for B: `asyncio.wait(..., FIRST_COMPLETED)` hands back
only the failed first completion, and the code then cancels every
pending task (source lines 168-189). -/
theorem c9_counterexample :
    try_models_parallel
        [⟨50, Except.error "TransportError"⟩, ⟨200, Except.ok "B advice"⟩] 30000
      = ⟨allModelsFailedText, false⟩
    ∧ (50 : ℚ) ≤ 30000 ∧ (200 : ℚ) ≤ 30000
    ∧ "B advice".isEmpty = false
    ∧ strStartsWith "B advice" "Error:" = false := by
  refine ⟨by decide, by decide, by decide, by decide, by decide⟩

/-- Claim C9 (amended): the race returns the result of the task that
completes first, provided that completion is a valid success (truthy
text not starting with `"Error:"`), and cancels all others — a later
completion neither overwrites the result nor blocks the caller; with
A succeeding at 200 ms and B succeeding at 50 ms it returns B's result.
If the first completion is a failure, the others are cancelled and the
race reports failure without waiting for the still-running attempts. -/
theorem c9_theorem (pre post : List TaskSpec) (t : ℚ) (r : String) (timeout : ℚ)
    (hlt : ∀ u ∈ pre ++ post, t < u.time) (htimeout : t ≤ timeout)
    (hne : r.isEmpty = false) (herr : strStartsWith r "Error:" = false) :
    try_models_parallel (pre ++ ⟨t, Except.ok r⟩ :: post) timeout = ⟨r, true⟩ := by
  have hmem : t ∈ completionTimes (pre ++ ⟨t, Except.ok r⟩ :: post) timeout := by
    unfold completionTimes
    refine List.mem_map.mpr ⟨⟨t, Except.ok r⟩, ?_, rfl⟩
    refine List.mem_filter.mpr ⟨?_, by simpa using htimeout⟩
    exact List.mem_append.mpr (Or.inr (List.mem_cons_self _ post))
  have hlb : ∀ x ∈ completionTimes (pre ++ ⟨t, Except.ok r⟩ :: post) timeout, t ≤ x := by
    intro x hx
    unfold completionTimes at hx
    obtain ⟨u, hu, hux⟩ := List.mem_map.mp hx
    have humem : u ∈ pre ++ ⟨t, Except.ok r⟩ :: post := (List.mem_filter.mp hu).1
    rcases List.mem_append.mp humem with hupre | humid
    · exact hux ▸ le_of_lt (hlt u (List.mem_append.mpr (Or.inl hupre)))
    · rcases List.mem_cons.mp humid with heq | hupost
      · rw [← hux, heq]
      · exact hux ▸ le_of_lt (hlt u (List.mem_append.mpr (Or.inr hupost)))
  have hdone : doneTasks (pre ++ ⟨t, Except.ok r⟩ :: post) timeout = [⟨t, Except.ok r⟩] := by
    unfold doneTasks
    rw [minQ_eq_some _ t hmem hlb]
    show (pre ++ ⟨t, Except.ok r⟩ :: post).filter (fun u => decide (u.time = t))
      = [⟨t, Except.ok r⟩]
    rw [List.filter_append, List.filter_cons]
    have hprefilter : pre.filter (fun u => decide (u.time = t)) = [] := by
      rw [List.filter_eq_nil]
      intro u hu
      simp only [decide_eq_true_eq]
      exact ne_of_gt (hlt u (List.mem_append.mpr (Or.inl hu)))
    have hpostfilter : post.filter (fun u => decide (u.time = t)) = [] := by
      rw [List.filter_eq_nil]
      intro u hu
      simp only [decide_eq_true_eq]
      exact ne_of_gt (hlt u (List.mem_append.mpr (Or.inr hu)))
    rw [hprefilter, hpostfilter]
    simp
  unfold try_models_parallel
  rw [hdone]
  simp [firstDoneSuccess, hne, herr]

/-- Claim C9 witness: A succeeding at 200 ms and B succeeding at 50 ms
returns B's result; A's later completion does not overwrite it. -/
theorem c9_witness :
    try_models_parallel
        [⟨200, Except.ok "A advice"⟩, ⟨50, Except.ok "B advice"⟩] 30000
      = ⟨"B advice", true⟩ :=
  c9_theorem [⟨200, Except.ok "A advice"⟩] [] 50 "B advice" 30000
    (by decide) (by decide) (by decide) (by decide)

end AdvServer

/-! ## Claim C10 : cache keys are not injective in the input text -/

namespace AdvServer

open DoctorTool (PerfRecord CacheEntry ProgState)

/-- Equal reduced hashes give equal cache keys (for the same backend
choice). -/
lemma get_cache_key_eq_of_emod_eq (h : String → ℤ) (m : Option String) (s1 s2 : String)
    (hm12 : h s1 % 10000 = h s2 % 10000) :
    get_cache_key h s1 m = get_cache_key h s2 m := by
  unfold get_cache_key
  rw [hm12]

/-- Claim C10: `get_cache_key` reduces the input to
`hash(symptoms) % 10000`, so for each fixed backend choice the key space
has at most 10000 elements; hence two distinct inputs share a key, and a
fresh `get` for the second input returns the text cached for the first.
Quantified over the interpreter's string-hash function. -/
theorem c10_theorem (h : String → ℤ) (m : Option String) (X : String) (t0 t1 : ℚ)
    (hfresh : t1 - t0 < 3600) :
    (∃ keys : Finset String, keys.card ≤ 10000 ∧ ∀ s, get_cache_key h s m ∈ keys)
    ∧ ∃ s1 s2 : String, s1 ≠ s2 ∧ get_cache_key h s1 m = get_cache_key h s2 m
      ∧ get_cached_response h (cache_response h [] s1 X m t0) s2 m t1 = some X := by
  have hnn : ∀ s : String, 0 ≤ h s % 10000 := fun s => Int.emod_nonneg _ (by norm_num)
  have hlt : ∀ s : String, h s % 10000 < 10000 := fun s => Int.emod_lt_of_pos _ (by norm_num)
  constructor
  · refine ⟨(Finset.range 10000).image (fun n : ℕ => get_cache_key (fun _ => (n : ℤ)) "" m),
      le_trans Finset.card_image_le (by rw [Finset.card_range]), ?_⟩
    intro s
    have hcover : get_cache_key h s m
        = get_cache_key (fun _ => ((h s % 10000).toNat : ℤ)) "" m := by
      unfold get_cache_key
      dsimp only
      rw [show ((h s % 10000).toNat : ℤ) % 10000 = h s % 10000 from by
        rw [Int.toNat_of_nonneg (hnn s), Int.emod_emod_of_dvd _ dvd_rfl]]
    rw [hcover]
    refine Finset.mem_image.mpr ⟨(h s % 10000).toNat, Finset.mem_range.mpr ?_, rfl⟩
    have h1 := hnn s
    have h2 := hlt s
    omega
  · have hinj : Function.Injective (fun n : ℕ => String.mk (List.replicate n 'a')) := by
      intro a b hab
      have hd : List.replicate a 'a' = List.replicate b 'a' := congrArg String.data hab
      have hlen := congrArg List.length hd
      simpa using hlen
    have hcard : (Finset.range 10000).card
        < ((Finset.range 10001).image (fun n => String.mk (List.replicate n 'a'))).card := by
      rw [Finset.card_image_of_injective _ hinj, Finset.card_range, Finset.card_range]
      norm_num
    have hmapsto : ∀ s ∈ (Finset.range 10001).image (fun n => String.mk (List.replicate n 'a')),
        (fun s => (h s % 10000).toNat) s ∈ Finset.range 10000 :=
      fun s _ => Finset.mem_range.mpr (by
        show (h s % 10000).toNat < 10000
        have h1 := hnn s
        have h2 := hlt s
        omega)
    obtain ⟨s1, hs1, s2, hs2, hne12, hfeq⟩ :=
      Finset.exists_ne_map_eq_of_card_lt_of_maps_to hcard hmapsto
    have hmod : h s1 % 10000 = h s2 % 10000 := by
      have h1 := hnn s1
      have h2 := hnn s2
      omega
    refine ⟨s1, s2, hne12, get_cache_key_eq_of_emod_eq h m s1 s2 hmod, ?_⟩
    simp only [get_cached_response, cache_response]
    rw [show get_cache_key h s2 m = get_cache_key h s1 m
        from (get_cache_key_eq_of_emod_eq h m s1 s2 hmod).symm,
      find?_dictInsert]
    dsimp only
    rw [if_pos hfresh]

/-- Claim C10 witness: the collision and cross-talk property
instantiated at the constant-zero hash, ten seconds after the put. -/
theorem c10_witness :
    (∃ keys : Finset String, keys.card ≤ 10000
      ∧ ∀ s, get_cache_key (fun _ => 0) s none ∈ keys)
    ∧ ∃ s1 s2 : String, s1 ≠ s2
      ∧ get_cache_key (fun _ => 0) s1 none = get_cache_key (fun _ => 0) s2 none
      ∧ get_cached_response (fun _ => 0)
          (cache_response (fun _ => 0) [] s1 "cached" none 0) s2 none 10 = some "cached" :=
  c10_theorem (fun _ => 0) none "cached" 0 10 (by rw [sub_zero]; decide)

end AdvServer

end DrArogya
